import Mathlib

/-!
Verification of the missed-bolus detector (`missed_bolus.py`).

Shallow embedding conventions:
* Timestamps are modelled as `Int` seconds (the Python code parses the ISO
  timestamp string, stripping the trailing zone designator, and works with
  `total_seconds()` of datetime differences; we work directly with the parsed
  instant).  The single evaluation instant `datetime.utcnow()` is modelled as
  one fixed parameter `now`.
* The deferred insulin fetch (`insulin_func`) is a function `Unit → List
  InsulinEntry`; the number of times it is invoked is tracked explicitly.
* External services (the Nightscout data store and the push service) are
  modelled as explicit state: a list of treatment records (most recent first)
  and a count of notifications delivered.
* `print` logging has no semantic effect and is dropped, except that
  `fetch_data`'s error log is reflected as a Boolean "logged" flag.
-/

namespace MissedBolus

/-- `IGNORE_CARBS = 15` (module constant, line 37 of the source). -/
def IGNORE_CARBS : Int := 15

/-- `IGNORE_AFTER = 1800` — the lookback limit in seconds (line 38). -/
def IGNORE_AFTER : Int := 1800

/-- `APP_NAME = "missed-bolus-detector"` — the monitor's identifier tag (line 40). -/
def APP_NAME : String := "missed-bolus-detector"

/-- `BOLUS_BEFORE = 240` — the bolus grace window in seconds (line 41). -/
def BOLUS_BEFORE : Int := 240

/-- A carb treatment entry: parsed `timestamp` and `carbs` grams. -/
structure CarbEntry where
  timestamp : Int
  carbs : Int
  deriving Repr, DecidableEq

/-- An insulin treatment entry: only its parsed `timestamp` is consulted. -/
structure InsulinEntry where
  timestamp : Int
  deriving Repr, DecidableEq

/-- A treatment record in the Nightscout store, as consulted by the
deduplication lookup: its `enteredBy` tag and its `timestamp`. -/
structure Treatment where
  enteredBy : String
  timestamp : Int
  deriving Repr, DecidableEq

/-- The match test of the inner loop (source line 103):
`0 <= (insulin_time - carb_time).total_seconds() <= BOLUS_BEFORE`. -/
def bolusMatch (carbTime : Int) (e : InsulinEntry) : Bool :=
  decide (0 ≤ e.timestamp - carbTime) && decide (e.timestamp - carbTime ≤ BOLUS_BEFORE)

/-- The inner scan over insulin entries (source lines 101-106): walk the
fetched list in order and stop at the first entry passing `bolusMatch`,
returning it (`none` when no entry matches, i.e. `matched` stays false). -/
def scanInsulin (carbTime : Int) : List InsulinEntry → Option InsulinEntry
  | [] => none
  | e :: rest => if bolusMatch carbTime e then some e else scanInsulin carbTime rest

/-- The loop body of `check_missed_boluses` (source lines 79-113), with the
lazily fetched insulin list (`insulin_data`, `None` before the first fetch)
and the number of fetches performed so far threaded explicitly.  Returns the
list of carb entries for which `send_alert` was invoked (in invocation order)
together with the final fetch count.
* elapsed `≤ BOLUS_BEFORE` (line 85): skip, continue with the older entries
  (the `matched = True` assignment there is commented "not used yet" and has
  no effect);
* elapsed `> IGNORE_AFTER` (line 90): break;
* otherwise fetch insulin if not yet fetched (lines 95-96), scan it
  (lines 101-106), and on no match alert and break (lines 109-113). -/
def checkLoop (now : Int) (insulinFunc : Unit → List InsulinEntry) :
    List CarbEntry → Option (List InsulinEntry) → Nat → List CarbEntry × Nat
  | [], _, fetches => ([], fetches)
  | c :: rest, insData, fetches =>
    if now - c.timestamp ≤ BOLUS_BEFORE then
      checkLoop now insulinFunc rest insData fetches
    else if IGNORE_AFTER < now - c.timestamp then
      ([], fetches)
    else if (scanInsulin c.timestamp (insData.getD (insulinFunc ()))).isSome then
      checkLoop now insulinFunc rest (some (insData.getD (insulinFunc ())))
        (if insData.isSome then fetches else fetches + 1)
    else
      ([c], if insData.isSome then fetches else fetches + 1)

/-- `check_missed_boluses(carb_data, insulin_func)` (source lines 71-113):
start the loop with `insulin_data = None` and no fetches performed. -/
def check_missed_boluses (now : Int) (carbs : List CarbEntry)
    (insulinFunc : Unit → List InsulinEntry) : List CarbEntry × Nat :=
  checkLoop now insulinFunc carbs none 0

/-- HTTP-level behaviour of `fetch_data` (source lines 63-68): on a status-200
response return the decoded body, otherwise log the failure (second component
`true`) and return the empty list.  The function is total — no exception
reaches the caller.  The query URL (filters, count, token) does not affect
this branch, so the response is taken as input. -/
def fetch_data_result {α : Type} (status : Nat) (body : List α) : List α × Bool :=
  if status == 200 then (body, false) else ([], true)

/-- Modelled from the spec: the external data service itself is not part of
this repository.  Per the spec's query interface, a treatments query with an
`enteredBy` filter and a result-count limit returns the at most `count`
most-recent matching records; the store is held most-recent first. -/
def ns_query (store : List Treatment) (tag : String) (count : Nat) : List Treatment :=
  (store.filter (fun r => r.enteredBy == tag)).take count

/-- `already_alerted(carb_entry)` (source lines 116-125): fetch the treatments
entered by `APP_NAME` — with `fetch_data`'s default `count=3` (line 47) — and
report whether any returned record's timestamp equals the carb entry's.  The
Python loop returns at the first hit, which is `List.any`. -/
def already_alerted (store : List Treatment) (carbTs : Int) : Bool :=
  (ns_query store APP_NAME 3).any (fun e => e.timestamp == carbTs)

/-- State of the external services the Alerter writes to: the treatment
store (most recent first) and the number of push notifications delivered. -/
structure AlertState where
  store : List Treatment
  notifications : Nat
  deriving Repr, DecidableEq

/-- `send_po_alert` (source lines 169-187): posts one push notification.  A
non-200 response is only logged, so the state effect is one delivery
attempt. -/
def send_po_alert (s : AlertState) : AlertState :=
  { s with notifications := s.notifications + 1 }

/-- The treatment record written by `send_ns_alert` (source lines 149-157):
tagged `enteredBy = APP_NAME` and carrying the carb entry's timestamp. -/
def alertRecord (c : CarbEntry) : Treatment :=
  { enteredBy := APP_NAME, timestamp := c.timestamp }

/-- `send_ns_alert` (source lines 141-166): posts the deduplication record to
the treatments store; the new record is the most recent. -/
def send_ns_alert (c : CarbEntry) (s : AlertState) : AlertState :=
  { s with store := alertRecord c :: s.store }

/-- `send_alert(carb_entry, repeat=False)` (source lines 128-138).  `dedupOk`
says whether the dedup lookup's own fetch succeeded (a failed fetch returns
the empty list, so `already_alerted` sees nothing).  When `rep` is false and
`already_alerted` finds nothing, `rep` is set true; if `rep` ends up true,
the push alert and then the Nightscout record are sent. -/
def send_alert (c : CarbEntry) (rep : Bool) (dedupOk : Bool) (s : AlertState) :
    AlertState :=
  let rep2 := if !rep then
      (if !(dedupOk && already_alerted s.store c.timestamp) then true else rep)
    else rep
  if rep2 then send_ns_alert c (send_po_alert s) else s

/-- A concrete store exercising the dedup lookup's `count=3` bound: four
records tagged by this monitor, most recent first. -/
def dedupStore : List Treatment :=
  [⟨APP_NAME, 400⟩, ⟨APP_NAME, 300⟩, ⟨APP_NAME, 200⟩, ⟨APP_NAME, 100⟩]

theorem checkLoop_nil (now : Int) (f : Unit → List InsulinEntry)
    (insData : Option (List InsulinEntry)) (n : Nat) :
    checkLoop now f [] insData n = ([], n) := rfl

theorem checkLoop_cons (now : Int) (f : Unit → List InsulinEntry) (c : CarbEntry)
    (rest : List CarbEntry) (insData : Option (List InsulinEntry)) (n : Nat) :
    checkLoop now f (c :: rest) insData n =
      if now - c.timestamp ≤ BOLUS_BEFORE then
        checkLoop now f rest insData n
      else if IGNORE_AFTER < now - c.timestamp then
        ([], n)
      else if (scanInsulin c.timestamp (insData.getD (f ()))).isSome then
        checkLoop now f rest (some (insData.getD (f ())))
          (if insData.isSome then n else n + 1)
      else
        ([c], if insData.isSome then n else n + 1) := rfl

/-- Every carb entry the loop alerts on passed both window checks and had no
match in the effective insulin list (the cached list if already fetched,
otherwise the fetcher's result). -/
theorem checkLoop_alerted (now : Int) (f : Unit → List InsulinEntry) :
    ∀ (carbs : List CarbEntry) (insData : Option (List InsulinEntry)) (n : Nat),
      ∀ c ∈ (checkLoop now f carbs insData n).1,
        BOLUS_BEFORE < now - c.timestamp ∧ now - c.timestamp ≤ IGNORE_AFTER ∧
          scanInsulin c.timestamp (insData.getD (f ())) = none := by
  intro carbs
  induction carbs with
  | nil => intro insData n c hc; simp [checkLoop_nil] at hc
  | cons a rest ih =>
    intro insData n c hc
    rw [checkLoop_cons] at hc
    by_cases h1 : now - a.timestamp ≤ BOLUS_BEFORE
    · rw [if_pos h1] at hc
      exact ih insData n c hc
    · rw [if_neg h1] at hc
      by_cases h2 : IGNORE_AFTER < now - a.timestamp
      · rw [if_pos h2] at hc
        simp at hc
      · rw [if_neg h2] at hc
        by_cases h3 : (scanInsulin a.timestamp (insData.getD (f ()))).isSome
        · rw [if_pos h3] at hc
          have := ih (some (insData.getD (f ())))
            (if insData.isSome then n else n + 1) c hc
          simpa using this
        · rw [if_neg h3] at hc
          simp at hc
          subst hc
          exact ⟨lt_of_not_le h1, le_of_not_lt h2,
            Option.not_isSome_iff_eq_none.mp h3⟩

/-- The loop alerts on at most one carb entry. -/
theorem checkLoop_length_le (now : Int) (f : Unit → List InsulinEntry) :
    ∀ (carbs : List CarbEntry) (insData : Option (List InsulinEntry)) (n : Nat),
      (checkLoop now f carbs insData n).1.length ≤ 1 := by
  intro carbs
  induction carbs with
  | nil => intro insData n; simp [checkLoop_nil]
  | cons a rest ih =>
    intro insData n
    rw [checkLoop_cons]
    by_cases h1 : now - a.timestamp ≤ BOLUS_BEFORE
    · rw [if_pos h1]; exact ih insData n
    · rw [if_neg h1]
      by_cases h2 : IGNORE_AFTER < now - a.timestamp
      · rw [if_pos h2]; simp
      · rw [if_neg h2]
        by_cases h3 : (scanInsulin a.timestamp (insData.getD (f ()))).isSome
        · rw [if_pos h3]; exact ih _ _
        · rw [if_neg h3]; simp

/-- Once the insulin list is cached, no further fetches happen. -/
theorem checkLoop_some_fetches (now : Int) (f : Unit → List InsulinEntry) :
    ∀ (carbs : List CarbEntry) (d : List InsulinEntry) (n : Nat),
      (checkLoop now f carbs (some d) n).2 = n := by
  intro carbs
  induction carbs with
  | nil => intro d n; simp [checkLoop_nil]
  | cons a rest ih =>
    intro d n
    rw [checkLoop_cons]
    by_cases h1 : now - a.timestamp ≤ BOLUS_BEFORE
    · rw [if_pos h1]; exact ih d n
    · rw [if_neg h1]
      by_cases h2 : IGNORE_AFTER < now - a.timestamp
      · rw [if_pos h2]
      · rw [if_neg h2]
        by_cases h3 : (scanInsulin a.timestamp ((some d).getD (f ()))).isSome
        · rw [if_pos h3]; simpa using ih _ _
        · rw [if_neg h3]; simp

/-- Starting with no cached insulin list, at most one fetch is performed. -/
theorem checkLoop_none_fetches_le (now : Int) (f : Unit → List InsulinEntry) :
    ∀ (carbs : List CarbEntry) (n : Nat),
      (checkLoop now f carbs none n).2 ≤ n + 1 := by
  intro carbs
  induction carbs with
  | nil => intro n; simp [checkLoop_nil]
  | cons a rest ih =>
    intro n
    rw [checkLoop_cons]
    by_cases h1 : now - a.timestamp ≤ BOLUS_BEFORE
    · rw [if_pos h1]; exact ih n
    · rw [if_neg h1]
      by_cases h2 : IGNORE_AFTER < now - a.timestamp
      · rw [if_pos h2]; simp
      · rw [if_neg h2]
        by_cases h3 : (scanInsulin a.timestamp ((none : Option _).getD (f ()))).isSome
        · rw [if_pos h3]
          simpa using le_of_eq (checkLoop_some_fetches now f rest _ (n + 1))
        · rw [if_neg h3]; simp

/-- If every carb entry fails one of the two window checks, the loop never
reaches the fetch step and the fetch count is unchanged. -/
theorem checkLoop_no_eligible_fetches (now : Int) (f : Unit → List InsulinEntry) :
    ∀ (carbs : List CarbEntry) (n : Nat),
      (∀ c ∈ carbs, now - c.timestamp ≤ BOLUS_BEFORE ∨ IGNORE_AFTER < now - c.timestamp) →
      (checkLoop now f carbs none n).2 = n := by
  intro carbs
  induction carbs with
  | nil => intro n _; simp [checkLoop_nil]
  | cons a rest ih =>
    intro n h
    rw [checkLoop_cons]
    by_cases h1 : now - a.timestamp ≤ BOLUS_BEFORE
    · rw [if_pos h1]
      exact ih n (fun c hc => h c (List.mem_cons_of_mem a hc))
    · rw [if_neg h1]
      have h2 : IGNORE_AFTER < now - a.timestamp :=
        (h a (List.mem_cons_self a rest)).resolve_left h1
      rw [if_pos h2]

/-- The first-match scan is `List.find?` with the match test. -/
theorem scanInsulin_eq_find (ct : Int) (ins : List InsulinEntry) :
    scanInsulin ct ins = ins.find? (bolusMatch ct) := by
  induction ins with
  | nil => rfl
  | cons e rest ih =>
    cases h : bolusMatch ct e <;> simp [scanInsulin, List.find?_cons, h, ih]

/-- The scan reports no match exactly when no entry passes the match test. -/
theorem scanInsulin_eq_none_iff (ct : Int) (ins : List InsulinEntry) :
    scanInsulin ct ins = none ↔ ∀ e ∈ ins, bolusMatch ct e = false := by
  rw [scanInsulin_eq_find, List.find?_eq_none]
  simp

/-- Claim C1: on a reverse-chronological carb list, an eligible carb entry
(elapsed strictly above `BOLUS_BEFORE`, at most `IGNORE_AFTER`) with no
matching insulin entry receives exactly one alert attempt and the loop halts
there, so at most one alert is raised per evaluation call. -/
theorem C1_single_alert_and_halt (now : Int) (f : Unit → List InsulinEntry) :
    (∀ carbs : List CarbEntry, (check_missed_boluses now carbs f).1.length ≤ 1) ∧
    (∀ (c : CarbEntry) (rest : List CarbEntry) (insData : Option (List InsulinEntry))
       (n : Nat),
      BOLUS_BEFORE < now - c.timestamp → now - c.timestamp ≤ IGNORE_AFTER →
      scanInsulin c.timestamp (insData.getD (f ())) = none →
      checkLoop now f (c :: rest) insData n =
        ([c], if insData.isSome then n else n + 1)) := by
  constructor
  · intro carbs
    exact checkLoop_length_le now f carbs none 0
  · intro c rest insData n h1 h2 h3
    rw [checkLoop_cons, if_neg (not_le.mpr h1), if_neg (not_lt.mpr h2),
      if_neg (by simp [h3])]

/-- Witness for C1 at a concrete eligible, unmatched entry. -/
theorem C1_single_alert_and_halt_witness :
    checkLoop 1000 (fun _ => []) [⟨700, 20⟩] none 0 =
      ([⟨700, 20⟩], if (none : Option (List InsulinEntry)).isSome then 0 else 0 + 1) :=
  (C1_single_alert_and_halt 1000 (fun _ => [])).2 ⟨700, 20⟩ [] none 0
    (by decide) (by decide) (by decide)

/-- Claim C2: an insulin entry matches a carb entry exactly when
`0 ≤ insulin.timestamp - carb.timestamp ≤ BOLUS_BEFORE`; the scan stops at
the first match in fetch order (it is `List.find?`); and a carb entry with a
matching insulin entry in the effective insulin list is never alerted. -/
theorem C2_match_semantics (ct : Int) :
    (∀ ins : List InsulinEntry, scanInsulin ct ins = ins.find? (bolusMatch ct)) ∧
    (∀ e : InsulinEntry, bolusMatch ct e = true ↔
      0 ≤ e.timestamp - ct ∧ e.timestamp - ct ≤ BOLUS_BEFORE) ∧
    (∀ (now : Int) (f : Unit → List InsulinEntry) (carbs : List CarbEntry)
       (insData : Option (List InsulinEntry)) (n : Nat) (c : CarbEntry),
      c ∈ (checkLoop now f carbs insData n).1 →
      ∀ e ∈ insData.getD (f ()), bolusMatch c.timestamp e = false) := by
  refine ⟨scanInsulin_eq_find ct, ?_, ?_⟩
  · intro e
    simp [bolusMatch]
  · intro now f carbs insData n c hc
    exact (scanInsulin_eq_none_iff c.timestamp (insData.getD (f ()))).mp
      (checkLoop_alerted now f carbs insData n c hc).2.2

/-- Witness for C2 at a concrete alerted entry: nothing in the effective
insulin list matched it. -/
theorem C2_match_semantics_witness :
    ∀ e ∈ (none : Option (List InsulinEntry)).getD ((fun _ => []) ()),
      bolusMatch (⟨700, 20⟩ : CarbEntry).timestamp e = false :=
  (C2_match_semantics 0).2.2 1000 (fun _ => []) [⟨700, 20⟩] none 0 ⟨700, 20⟩
    (by decide)

/-- Claim C3: a carb entry whose elapsed time is at most `BOLUS_BEFORE`
(zero, negative i.e. future-dated, or exactly the boundary included) is
skipped without alerting and the loop continues with the older entries. -/
theorem C3_too_recent_skip (now : Int) (f : Unit → List InsulinEntry) (c : CarbEntry)
    (h : now - c.timestamp ≤ BOLUS_BEFORE) :
    (∀ (rest : List CarbEntry) (insData : Option (List InsulinEntry)) (n : Nat),
      checkLoop now f (c :: rest) insData n = checkLoop now f rest insData n) ∧
    (∀ carbs : List CarbEntry, c ∉ (check_missed_boluses now carbs f).1) := by
  constructor
  · intro rest insData n
    rw [checkLoop_cons, if_pos h]
  · intro carbs hc
    exact absurd h (not_le.mpr (checkLoop_alerted now f carbs none 0 c hc).1)

/-- Witness for C3 at a 60-second-old entry. -/
theorem C3_too_recent_skip_witness :
    checkLoop 1000 (fun _ => []) [⟨940, 20⟩] none 0 =
      checkLoop 1000 (fun _ => []) [] none 0 :=
  (C3_too_recent_skip 1000 (fun _ => []) ⟨940, 20⟩ (by decide)).1 [] none 0

/-- Claim C4: a carb entry strictly older than `IGNORE_AFTER` stops the loop
entirely — neither it nor any older entry is alerted — while an entry exactly
at the `IGNORE_AFTER` boundary is still evaluated (and alerted when its scan
finds no match). -/
theorem C4_too_old_stop (now : Int) (f : Unit → List InsulinEntry) :
    (∀ (c : CarbEntry) (rest : List CarbEntry) (insData : Option (List InsulinEntry))
       (n : Nat),
      IGNORE_AFTER < now - c.timestamp →
      checkLoop now f (c :: rest) insData n = ([], n)) ∧
    (∀ (c : CarbEntry) (rest : List CarbEntry) (ins : List InsulinEntry) (n : Nat),
      now - c.timestamp = IGNORE_AFTER →
      scanInsulin c.timestamp ins = none →
      checkLoop now f (c :: rest) (some ins) n = ([c], n)) := by
  constructor
  · intro c rest insData n h
    have h1 : ¬ now - c.timestamp ≤ BOLUS_BEFORE := by
      rw [BOLUS_BEFORE]
      rw [IGNORE_AFTER] at h
      omega
    rw [checkLoop_cons, if_neg h1, if_pos h]
  · intro c rest ins n h hscan
    have h1 : ¬ now - c.timestamp ≤ BOLUS_BEFORE := by
      rw [BOLUS_BEFORE]
      rw [h, IGNORE_AFTER]
      omega
    have h2 : ¬ IGNORE_AFTER < now - c.timestamp := by
      rw [h]
      omega
    rw [checkLoop_cons, if_neg h1, if_neg h2]
    simp [hscan]

/-- Witness for C4: a 2100-second-old entry stops the loop. -/
theorem C4_too_old_stop_witness :
    checkLoop 2200 (fun _ => []) [⟨100, 20⟩, ⟨50, 30⟩] none 0 = ([], 0) :=
  (C4_too_old_stop 2200 (fun _ => [])).1 ⟨100, 20⟩ [⟨50, 30⟩] none 0 (by decide)

/-- Claim C5: the deferred insulin fetcher is invoked at most once per call,
and not at all when no carb entry passes both window checks. -/
theorem C5_lazy_fetch (now : Int) (carbs : List CarbEntry)
    (f : Unit → List InsulinEntry) :
    (check_missed_boluses now carbs f).2 ≤ 1 ∧
    ((∀ c ∈ carbs, now - c.timestamp ≤ BOLUS_BEFORE ∨ IGNORE_AFTER < now - c.timestamp) →
      (check_missed_boluses now carbs f).2 = 0) := by
  constructor
  · simpa using checkLoop_none_fetches_le now f carbs 0
  · intro h
    exact checkLoop_no_eligible_fetches now f carbs 0 h

/-- Witness for C5: one too-recent entry, no fetch performed. -/
theorem C5_lazy_fetch_witness :
    (check_missed_boluses 1000 [⟨940, 20⟩] (fun _ => [])).2 = 0 :=
  (C5_lazy_fetch 1000 [⟨940, 20⟩] (fun _ => [])).2 (by decide)

/-- Claim C9: when the insulin fetch yields the empty list (no data, or a
failed fetch's empty-result substitute), the first eligible carb entry —
after any too-recent prefix — is treated as unmatched and alerted. -/
theorem C9_empty_insulin_alerts (now : Int) (f : Unit → List InsulinEntry)
    (pre rest : List CarbEntry) (c : CarbEntry)
    (hf : f () = [])
    (hpre : ∀ x ∈ pre, now - x.timestamp ≤ BOLUS_BEFORE)
    (h1 : BOLUS_BEFORE < now - c.timestamp)
    (h2 : now - c.timestamp ≤ IGNORE_AFTER) :
    check_missed_boluses now (pre ++ c :: rest) f = ([c], 1) := by
  unfold check_missed_boluses
  revert hpre
  induction pre with
  | nil =>
    intro _
    rw [List.nil_append, checkLoop_cons, if_neg (not_le.mpr h1),
      if_neg (not_lt.mpr h2)]
    simp [Option.getD, hf, scanInsulin]
  | cons p pre' ih =>
    intro hpre
    rw [List.cons_append, checkLoop_cons, if_pos (hpre p (List.mem_cons_self p pre'))]
    exact ih (fun x hx => hpre x (List.mem_cons_of_mem p hx))

/-- Witness for C9: too-recent entry then an eligible one, empty insulin. -/
theorem C9_empty_insulin_alerts_witness :
    check_missed_boluses 1000 ([⟨940, 20⟩] ++ ⟨700, 25⟩ :: []) (fun _ => []) =
      ([⟨700, 25⟩], 1) :=
  C9_empty_insulin_alerts 1000 (fun _ => []) [⟨940, 20⟩] [] ⟨700, 25⟩ rfl
    (by decide) (by decide) (by decide)

/-- The dedup check reports true exactly when the query's result (the at most
three most-recent records tagged by this monitor) holds the timestamp. -/
theorem already_alerted_iff (store : List Treatment) (ts : Int) :
    already_alerted store ts = true ↔
      ∃ r ∈ ns_query store APP_NAME 3, r.timestamp = ts := by
  simp [already_alerted]

/-- Claim C6: with the default `repeat` argument, the Alerter sends nothing
when the dedup query finds a record with the carb entry's timestamp;
otherwise it sends exactly one notification and writes exactly one record;
and a second call with the same carb-entry timestamp — when its dedup fetch
succeeds, so it observes the first call's write — changes nothing, so two
calls yield at most one notification and one record. -/
theorem C6_alerter_dedup_idempotent (s : AlertState) (c : CarbEntry) :
    ((∃ r ∈ ns_query s.store APP_NAME 3, r.timestamp = c.timestamp) →
      send_alert c false true s = s) ∧
    ((∀ r ∈ ns_query s.store APP_NAME 3, r.timestamp ≠ c.timestamp) →
      send_alert c false true s =
        ⟨alertRecord c :: s.store, s.notifications + 1⟩) ∧
    send_alert c false true (send_alert c false true s) = send_alert c false true s := by
  refine ⟨?_, ?_, ?_⟩
  · intro h
    have ha : already_alerted s.store c.timestamp = true :=
      (already_alerted_iff s.store c.timestamp).mpr h
    simp [send_alert, ha]
  · intro h
    have ha : already_alerted s.store c.timestamp = false := by
      cases hb : already_alerted s.store c.timestamp
      · rfl
      · obtain ⟨r, hr, hts⟩ := (already_alerted_iff s.store c.timestamp).mp hb
        exact absurd hts (h r hr)
    simp [send_alert, ha, send_ns_alert, send_po_alert]
  · cases ha : already_alerted s.store c.timestamp
    · have h1 : send_alert c false true s =
          ⟨alertRecord c :: s.store, s.notifications + 1⟩ := by
        simp [send_alert, ha, send_ns_alert, send_po_alert]
      have h2 : already_alerted (alertRecord c :: s.store) c.timestamp = true := by
        simp [already_alerted, ns_query, alertRecord, List.filter, List.take]
      rw [h1]
      simp [send_alert, h2]
    · have h1 : send_alert c false true s = s := by
        simp [send_alert, ha]
      rw [h1]
      exact h1

/-- Witness for C6 on the empty store: nothing matches the dedup query, so
one notification is sent and one record written. -/
theorem C6_alerter_dedup_idempotent_witness :
    send_alert ⟨700, 20⟩ false true ⟨[], 0⟩ =
      ⟨alertRecord ⟨700, 20⟩ :: [], 0 + 1⟩ :=
  (C6_alerter_dedup_idempotent ⟨[], 0⟩ ⟨700, 20⟩).2.1 (by decide)

/-- Claim C7 counterexample: a record written by this monitor with the carb
entry's exact timestamp sits in the store, yet the dedup check misses it,
because the lookup fetches only the default `count=3` most-recent records
tagged by the monitor and three newer tagged records crowd it out. -/
theorem C7_unbounded_lookup_counterexample :
    (⟨APP_NAME, 100⟩ : Treatment) ∈ dedupStore ∧
    (⟨APP_NAME, 100⟩ : Treatment).enteredBy = APP_NAME ∧
    already_alerted dedupStore 100 = false := by
  decide

/-- Claim C7 amended: the dedup lookup is bounded — it examines only the at
most three most-recent records tagged with the monitor's identifier (the
`fetch_data` default `count=3`), and a prior alert record is found exactly
when it lies within that bound. -/
theorem C7_bounded_lookup (store : List Treatment) (ts : Int) :
    already_alerted store ts = true ↔
      ∃ r ∈ (store.filter (fun r => r.enteredBy == APP_NAME)).take 3,
        r.timestamp = ts := by
  simp [already_alerted, ns_query]

/-- Claim C8: `fetch_data` returns the decoded body on a status-200 response
and the empty list otherwise, logging the failure; being a total function it
never raises to the caller. -/
theorem C8_fetch_error_handling {α : Type} (status : Nat) (body : List α) :
    (status = 200 → fetch_data_result status body = (body, false)) ∧
    (status ≠ 200 → fetch_data_result status body = ([], true)) := by
  constructor
  · intro h
    simp [fetch_data_result, h]
  · intro h
    rw [fetch_data_result, if_neg (by simpa using h)]

/-- Witness for C8 at a concrete failing status. -/
theorem C8_fetch_error_handling_witness :
    fetch_data_result 404 ([3] : List Nat) = ([], true) :=
  (C8_fetch_error_handling 404 [3]).2 (by decide)

/-- Claim C10: `repeat=True` sends the notification and writes the record
unconditionally, whatever the store holds and whether or not the dedup fetch
succeeds; with the default `repeat=False`, the dedup check alone decides. -/
theorem C10_repeat_bypass (c : CarbEntry) (s : AlertState) (dedupOk : Bool) :
    send_alert c true dedupOk s = send_ns_alert c (send_po_alert s) ∧
    send_alert c false true s =
      (if already_alerted s.store c.timestamp then s
       else send_ns_alert c (send_po_alert s)) := by
  constructor
  · simp [send_alert]
  · cases ha : already_alerted s.store c.timestamp <;> simp [send_alert, ha]

end MissedBolus
